import Mathlib

/-!
Verification development for the rio-tiler-pds core: scene-identifier
parsing, band-catalog resolution, storage-path rendering, the multi-band
read orchestrator's band-selection logic, and the Copernicus DEM degree-grid
mosaic reader.

Each definition is a shallow embedding of one Python function from the
repository sources; the docstring of each definition names the file and
function it embeds.  Latitudes and longitudes are modelled as rationals
(the embedded code only uses sign tests, `math.floor` and absolute value,
which agree on rationals and on the binary floats the code receives).
-/

/-- Error taxonomy of the embedded code paths.  `invalidSceneId` models
`InvalidSentinelSceneId` / `InvalidCBERSSceneId` / `InvalidLandsatSceneId`,
`invalidBandName` models `rio_tiler.errors.InvalidBandName`, `missingBands`
models `MissingBands`; `attributeError`, `keyError` and `indexError` model
the corresponding uncaught Python exceptions on edge inputs. -/
inductive PdsError where
  | invalidSceneId (msg : String)
  | invalidBandName (msg : String)
  | missingBands (msg : String)
  | attributeError
  | keyError
  | indexError
deriving Repr, DecidableEq

/-- Python `"{:0Nd}".format(n)` for a nonnegative integer: decimal digits
left-padded with zeros to a minimum width. -/
def zeroPad (width : Nat) (n : Nat) : String :=
  let s := toString n
  if s.length < width then String.mk (List.replicate (width - s.length) '0') ++ s
  else s

/-- Python `str.lstrip("0")`: drop leading zero characters. -/
def lstripZeros (s : String) : String :=
  String.mk (s.data.dropWhile (fun c => c = '0'))

/-! ## Copernicus DEM mosaic reader
Embeds `rio_tiler_pds/copernicus/aws/dem.py`, class `Dem30Reader`. -/

/-- The `Dem30Reader.prefix_pattern` attribute rendered at hemisphere
letters `northsouth`/`eastwest` and nonnegative cell magnitudes `lat`
(2-digit zero-padded) and `lon` (3-digit zero-padded):
`Copernicus_DSM_COG_10_<ns><lat>_00_<ew><lon>_00_DEM` twice, as directory
and file stem. -/
def dem30_prefix_pattern (northsouth : String) (lat : Nat) (eastwest : String) (lon : Nat) : String :=
  let cell := "Copernicus_DSM_COG_10_" ++ northsouth ++ zeroPad 2 lat ++ "_00_" ++
    eastwest ++ zeroPad 3 lon ++ "_00_DEM"
  cell ++ "/" ++ cell

/-- `Dem30Reader._get_dataset_url` (dem.py lines 198-209):
hemisphere letters from the sign of the input, then
`lat = abs(math.floor(lat))` and `lon = abs(math.floor(lon))`
(floor first, absolute value second), then the rendered pattern under
the `copernicus-dem-30m` bucket. -/
def dem30_get_dataset_url (lon lat : ℚ) : String :=
  let northsouth := if 0 ≤ lat then "N" else "S"
  let eastwest := if lon < 0 then "W" else "E"
  let latMag : Nat := (⌊lat⌋).natAbs
  let lonMag : Nat := (⌊lon⌋).natAbs
  "s3://copernicus-dem-30m/" ++ dem30_prefix_pattern northsouth latMag eastwest lonMag ++ ".tif"

/-- `Dem30Reader.assets_for_point` (dem.py lines 185-196) in the default
WGS84 coordinate branch (no reprojection): a one-element list holding the
dataset URL of the cell containing the point. -/
def dem30_assets_for_point (lon lat : ℚ) : List String :=
  [dem30_get_dataset_url lon lat]

/-- Modelled from the spec: the spec's sentence computes the cell magnitude
as `floor(abs(lat))` with the hemisphere sign recovered separately; this
definition follows the spec's words and is compared against
`dem30_get_dataset_url`, which embeds the source. -/
def dem30_get_dataset_url_specWords (lon lat : ℚ) : String :=
  let northsouth := if 0 ≤ lat then "N" else "S"
  let eastwest := if lon < 0 then "W" else "E"
  let latMag : Nat := (⌊|lat|⌋).natAbs
  let lonMag : Nat := (⌊|lon|⌋).natAbs
  "s3://copernicus-dem-30m/" ++ dem30_prefix_pattern northsouth latMag eastwest lonMag ++ ".tif"

/-! ## Sentinel-2 scene id parsing
Embeds `rio_tiler_pds/sentinel/utils.py`, function `s2_sceneid_parser`.
The three anchored gate regexes are embedded as segment matchers: no
character class in any of the gates contains the underscore, so a string
matches a gate exactly when its split on `_` has the gate's segment count
and every segment matches its segment shape; each bounded quantifier
(`[0-9]` one or two times) is followed by a disjoint class, so maximal
munch agrees with the regex engine's greedy backtracking. -/

/-- Split a character list at every occurrence of a one-character
separator, keeping empty segments — the segments of Python
`str.split(sep)` for a single-character `sep`. -/
def splitOnSep (sep : Char) : List Char → List (List Char)
  | [] => [[]]
  | c :: cs =>
    if c = sep then [] :: splitOnSep sep cs
    else
      match splitOnSep sep cs with
      | [] => [[c]]
      | h :: t => (c :: h) :: t

/-- Underscore split used by the scene id grammars. -/
def splitUnderscore (cs : List Char) : List (List Char) := splitOnSep '_' cs

/-- Consume exactly `n` characters satisfying `p`, returning them and the
rest. -/
def takeExact (p : Char → Bool) : Nat → List Char → Option (List Char × List Char)
  | 0, cs => some ([], cs)
  | _ + 1, [] => none
  | n + 1, c :: cs =>
    if p c then (takeExact p n cs).map (fun tr => (c :: tr.1, tr.2)) else none

/-- Uppercase latin letter, the class `[A-Z]`. -/
def isUpperAZ (c : Char) : Bool := 'A' ≤ c && c ≤ 'Z'

/-- The class `[0-9A-Z]`. -/
def isDigitOrUpper (c : Char) : Bool := c.isDigit || isUpperAZ c

/-- Parsed Sentinel-2 scene id fields (the named captures of
`s2_sceneid_parser` used by the readers, with `num` already defaulted to
`"0"` when the format omits it). -/
structure S2Params where
  sensor : String
  satellite : String
  processingLevel : String
  acquisitionYear : String
  acquisitionMonth : String
  acquisitionDay : String
  utm : String
  lat : String
  sq : String
  num : String
deriving Repr, DecidableEq

/-- Segment `S2[AB]`, captured as sensor `2` and satellite letter. -/
def s2SegHead (s : List Char) : Option (String × String) :=
  match s with
  | ['S', '2', sat] =>
    if sat = 'A' || sat = 'B' then some ("2", String.mk [sat]) else none
  | _ => none

/-- Segment `L[0-2][A-C]`, the processing level. -/
def s2SegLevel (s : List Char) : Option String :=
  match s with
  | ['L', n, l] =>
    if (('0' ≤ n && n ≤ '2') && (l = 'A' || l = 'B' || l = 'C')) then
      some (String.mk ['L', n, l])
    else none
  | _ => none

/-- Segment of eight digits `YYYYMMDD`, split into year, month, day. -/
def s2SegDate (s : List Char) : Option (String × String × String) :=
  match s with
  | [y1, y2, y3, y4, m1, m2, d1, d2] =>
    if [y1, y2, y3, y4, m1, m2, d1, d2].all Char.isDigit then
      some (String.mk [y1, y2, y3, y4], String.mk [m1, m2], String.mk [d1, d2])
    else none
  | _ => none

/-- Segment `[0-9](1,2)[A-Z](3)` (counts in parentheses): UTM zone digits,
latitude band letter, two-letter square. -/
def s2SegTile (s : List Char) : Option (String × String × String) := do
  let (utm, cs) ←
    match s with
    | c :: d :: cs =>
      if c.isDigit then
        if d.isDigit then some (([c, d] : List Char), cs) else some ([c], d :: cs)
      else none
    | _ => none
  let (la, cs) ← takeExact isUpperAZ 1 cs
  let (sqc, cs) ← takeExact isUpperAZ 2 cs
  if cs.isEmpty then some (String.mk utm, String.mk la, String.mk sqc) else none

/-- Segment of one or two digits (`num` in both non-product formats). -/
def s2SegNum (s : List Char) : Option String :=
  match s with
  | [c] => if c.isDigit then some (String.mk [c]) else none
  | [c, d] => if c.isDigit && d.isDigit then some (String.mk [c, d]) else none
  | _ => none

/-- Legacy format (gate `^S2[AB]_L[0-2][A-C]_[0-9](8)_[0-9](1,2)[A-Z](3)_[0-9](1,2)$`),
combined with its capture pattern. -/
def s2ParseLegacy (sceneid : String) : Option S2Params :=
  match splitUnderscore sceneid.data with
  | [s0, s1, s2, s3, s4] => do
    let (sensor, sat) ← s2SegHead s0
    let lvl ← s2SegLevel s1
    let (y, m, d) ← s2SegDate s2
    let (utm, la, sqc) ← s2SegTile s3
    let num ← s2SegNum s4
    some { sensor := sensor, satellite := sat, processingLevel := lvl,
           acquisitionYear := y, acquisitionMonth := m, acquisitionDay := d,
           utm := utm, lat := la, sq := sqc, num := num }
  | _ => none

/-- New format (gate `^S2[AB]_[0-9](1,2)[A-Z](3)_[0-9](8)_[0-9](1,2)_L[0-2][A-C]$`),
combined with its capture pattern. -/
def s2ParseNew (sceneid : String) : Option S2Params :=
  match splitUnderscore sceneid.data with
  | [s0, s1, s2, s3, s4] => do
    let (sensor, sat) ← s2SegHead s0
    let (utm, la, sqc) ← s2SegTile s1
    let (y, m, d) ← s2SegDate s2
    let num ← s2SegNum s3
    let lvl ← s2SegLevel s4
    some { sensor := sensor, satellite := sat, processingLevel := lvl,
           acquisitionYear := y, acquisitionMonth := m, acquisitionDay := d,
           utm := utm, lat := la, sq := sqc, num := num }
  | _ => none

/-- Segment `MSIL[0-2][ABC]` of the product id format. -/
def s2SegMsiLevel (s : List Char) : Option String :=
  match s with
  | ['M', 'S', 'I', 'L', n, l] =>
    if (('0' ≤ n && n ≤ '2') && (l = 'A' || l = 'B' || l = 'C')) then
      some (String.mk ['L', n, l])
    else none
  | _ => none

/-- Segment `[0-9](8)T[0-9](6)` of the product id format, returning year,
month, day of the date part. -/
def s2SegDateTime (s : List Char) : Option (String × String × String) :=
  match s with
  | [y1, y2, y3, y4, m1, m2, d1, d2, t, h1, h2, h3, h4, h5, h6] =>
    if t = 'T' && [y1, y2, y3, y4, m1, m2, d1, d2, h1, h2, h3, h4, h5, h6].all Char.isDigit then
      some (String.mk [y1, y2, y3, y4], String.mk [m1, m2], String.mk [d1, d2])
    else none
  | _ => none

/-- Segment: a literal letter followed by exactly `n` digits (`N0212`,
`R056` of the product id format). -/
def s2SegLetterDigits (letter : Char) (n : Nat) (s : List Char) : Option Unit :=
  match s with
  | c :: cs =>
    if c = letter && cs.length = n && cs.all Char.isDigit then some () else none
  | _ => none

/-- Gate shape of the product tile segment: `T[0-9A-Z](5)`. -/
def s2SegProductTileGate (s : List Char) : Bool :=
  match s with
  | 'T' :: cs => cs.length = 5 && cs.all isDigitOrUpper
  | _ => false

/-- Capture shape of the product tile segment: `T` then two digits (utm),
one character (latitude band), two characters (square); narrower than the
gate, which also admits letters in the utm slot. -/
def s2SegProductTileCapture (s : List Char) : Option (String × String × String) :=
  match s with
  | ['T', u1, u2, la, q1, q2] =>
    if u1.isDigit && u2.isDigit then
      some (String.mk [u1, u2], String.mk [la], String.mk [q1, q2])
    else none
  | _ => none

/-- Product id gate regex
`^S2[AB]_MSIL[0-2][ABC]_[0-9](8)T[0-9](6)_N[0-9](4)_R[0-9](3)_T[0-9A-Z](5)_[0-9](8)T[0-9](6)$`. -/
def s2MatchesProduct (sceneid : String) : Bool :=
  match splitUnderscore sceneid.data with
  | [s0, s1, s2, s3, s4, s5, s6] =>
    (s2SegHead s0).isSome && (s2SegMsiLevel s1).isSome && (s2SegDateTime s2).isSome &&
    (s2SegLetterDigits 'N' 4 s3).isSome && (s2SegLetterDigits 'R' 3 s4).isSome &&
    s2SegProductTileGate s5 && (s2SegDateTime s6).isSome
  | _ => false

/-- Product id capture pattern; `num` is absent and defaulted to `"0"`
by the source after the match. -/
def s2ParseProduct (sceneid : String) : Option S2Params :=
  match splitUnderscore sceneid.data with
  | [s0, s1, s2, s3, s4, s5, s6] => do
    let (sensor, sat) ← s2SegHead s0
    let lvl ← s2SegMsiLevel s1
    let (y, m, d) ← s2SegDateTime s2
    let _ ← s2SegLetterDigits 'N' 4 s3
    let _ ← s2SegLetterDigits 'R' 3 s4
    let (utm, la, sqc) ← s2SegProductTileCapture s5
    let _ ← s2SegDateTime s6
    some { sensor := sensor, satellite := sat, processingLevel := lvl,
           acquisitionYear := y, acquisitionMonth := m, acquisitionDay := d,
           utm := utm, lat := la, sq := sqc, num := "0" }
  | _ => none

/-- `s2_sceneid_parser` (sentinel/utils.py lines 31-117): try the legacy
format, then the new format, then the product id format, in the source's
declared order; when no gate matches, raise `InvalidSentinelSceneId` with
the source's message.  A product id that passes its gate but fails the
narrower capture crashes in Python (`NoneType.groupdict`), modelled as
`attributeError`. -/
def s2ParseSceneid (sceneid : String) : Except PdsError S2Params :=
  match s2ParseLegacy sceneid with
  | some p => .ok p
  | none =>
    match s2ParseNew sceneid with
    | some p => .ok p
    | none =>
      if s2MatchesProduct sceneid then
        match s2ParseProduct sceneid with
        | some p => .ok p
        | none => .error .attributeError
      else .error (.invalidSceneId ("Could not match " ++ sceneid))

/-! ## Sentinel-2 band URL resolution
Embeds `rio_tiler_pds/sentinel/aws/sentinel2.py`: the band catalogs and the
`_get_band_url` methods of `S2L1CReader` and `S2L2ACOGReader`.  The
`S2L2ACOGReader.bands` attribute is enumerated from a per-scene STAC
manifest, so the url functions below take the catalog as a parameter; the
static default catalogs are given as `default_l1c_bands` and
`default_l2a_bands`. -/

/-- Lowercase a string character-wise (Python `str.lower` on the ids in
use, which are ASCII). -/
def strToLower (s : String) : String := String.mk (s.data.map Char.toLower)

/-- `default_l1c_bands` (sentinel2.py lines 19-32). -/
def default_l1c_bands : List String :=
  ["B01", "B02", "B03", "B04", "B05", "B06", "B07", "B08", "B09", "B11", "B12", "B8A"]

/-- `default_l2a_bands` (sentinel2.py lines 133-149); the commented-out
product entries are not part of the tuple. -/
def default_l2a_bands : List String :=
  ["B01", "B02", "B03", "B04", "B05", "B06", "B07", "B08", "B09", "B11", "B12", "B8A"]

/-- The band alias normalization line shared by every Sentinel-2
`_get_band_url`: `band = band if len(band) == 3 else "B0" + band[-1]`.
A non-3-character band is rewritten to `B0` plus its last character; on the
empty string Python raises `IndexError` (`band[-1]`), modelled as `none`. -/
def s2NormalizeBand (band : String) : Option String :=
  if band.length = 3 then some band
  else
    match band.data.getLast? with
    | some c => some (String.mk ['B', '0', c])
    | none => none

/-- The `prefix_pattern` of `S2L2ACOGReader` rendered over parsed scene
fields, including the derived fields `_levelLow` (lower-cased level),
`_utm` and `_month` (zero-stripped), and the embedded COG scene name. -/
def s2l2acogSceneDir (p : S2Params) : String :=
  "sentinel-s2-" ++ strToLower p.processingLevel ++ "-cogs/" ++ lstripZeros p.utm ++ "/" ++
    p.lat ++ "/" ++ p.sq ++ "/" ++ p.acquisitionYear ++ "/" ++
    lstripZeros p.acquisitionMonth ++ "/" ++
    "S" ++ p.sensor ++ p.satellite ++ "_" ++ lstripZeros p.utm ++ p.lat ++ p.sq ++ "_" ++
    p.acquisitionYear ++ p.acquisitionMonth ++ p.acquisitionDay ++ "_" ++ p.num ++ "_" ++
    p.processingLevel

/-- `S2L2ACOGReader._get_band_url` (sentinel2.py lines 288-296): normalize
the requested band, reject a band absent from the catalog with
`InvalidBandName` citing the valid bands, else render
`s3://sentinel-cogs/<prefix>/<band>.tif`. -/
def s2l2acogGetBandUrl (bands : List String) (p : S2Params) (band : String) :
    Except PdsError String :=
  match s2NormalizeBand band with
  | none => .error .indexError
  | some b =>
    if bands.contains b then
      .ok ("s3://sentinel-cogs/" ++ s2l2acogSceneDir p ++ "/" ++ b ++ ".tif")
    else
      .error (.invalidBandName (b ++ " is not valid.\nValid bands: " ++ toString bands))

/-- The `prefix_pattern` of `S2L1CReader` rendered over parsed scene
fields (`tiles/<utm>/<lat>/<sq>/<year>/<month>/<day>/<num>` with the
zero-stripped derived fields). -/
def s2l1cSceneDir (p : S2Params) : String :=
  "tiles/" ++ lstripZeros p.utm ++ "/" ++ p.lat ++ "/" ++ p.sq ++ "/" ++
    p.acquisitionYear ++ "/" ++ lstripZeros p.acquisitionMonth ++ "/" ++
    lstripZeros p.acquisitionDay ++ "/" ++ p.num

/-- `S2L1CReader._get_band_url` (sentinel2.py lines 89-97): same two-stage
resolution as the COG reader, rendering
`s3://sentinel-s2-l1c/<prefix>/<band>.jp2`. -/
def s2l1cGetBandUrl (bands : List String) (p : S2Params) (band : String) :
    Except PdsError String :=
  match s2NormalizeBand band with
  | none => .error .indexError
  | some b =>
    if bands.contains b then
      .ok ("s3://sentinel-s2-l1c/" ++ s2l1cSceneDir p ++ "/" ++ b ++ ".jp2")
    else
      .error (.invalidBandName (b ++ " is not valid.\nValid bands: " ++ toString bands))

/-! ## Landsat band catalogs
Embeds `rio_tiler_pds/landsat/utils.py` (the band tables and
`get_bands_for_scene_meta`) and the band assignment in
`rio_tiler_pds/landsat/aws/landsat_collection2.py`
(`LandsatC2L2Reader.__attrs_post_init__`, whose `OLI_TIRS_SR_BANDS`,
`OLI_TIRS_ST_BANDS`, `TM_SR_BANDS`, `TM_ST_BANDS` tuples are re-declared
there with contents identical to the utils tables below). -/

def OLI_SR_BANDS : List String :=
  ["QA_PIXEL", "QA_RADSAT", "SR_B1", "SR_B2", "SR_B3", "SR_B4", "SR_B5", "SR_B6",
   "SR_B7", "SR_QA_AEROSOL"]

def TIRS_ST_BANDS : List String :=
  ["ST_ATRAN", "ST_B10", "ST_CDIST", "ST_DRAD", "ST_EMIS", "ST_EMSD", "ST_QA",
   "ST_TRAD", "ST_URAD"]

def TM_SR_BANDS : List String :=
  ["QA_PIXEL", "QA_RADSAT", "SR_ATMOS_OPACITY", "SR_B1", "SR_B2", "SR_B3", "SR_B4",
   "SR_B5", "SR_B7", "SR_CLOUD_QA"]

def TM_ST_BANDS : List String :=
  ["ST_ATRAN", "ST_B6", "ST_CDIST", "ST_DRAD", "ST_EMIS", "ST_EMSD", "ST_QA",
   "ST_TRAD", "ST_URAD"]

def OLI_L1_BANDS : List String :=
  ["B1", "B2", "B3", "B4", "B5", "B6", "B7", "B8", "B9"]

def TIRS_L1_BANDS : List String := ["B10", "B11"]

def OLI_L1_QA_BANDS : List String :=
  ["QA_PIXEL", "QA_RADSAT", "SAA", "SZA", "VAA", "VZA"]

def TIRS_L1_QA_BANDS : List String := ["QA_PIXEL", "QA_RADSAT"]

def ETM_L1_BANDS : List String :=
  ["B1", "B2", "B3", "B4", "B5", "B6_VCID_1", "B6_VCID_2", "B7", "B8", "QA_PIXEL",
   "QA_RADSAT", "SAA", "SZA", "VAA", "VZA"]

def TM_L1_BANDS : List String :=
  ["B1", "B2", "B3", "B4", "B5", "B6", "B7", "QA_PIXEL", "QA_RADSAT", "SAA", "SZA",
   "VAA", "VZA"]

def MSS_L1_BANDS : List String :=
  ["B4", "B5", "B6", "B7", "QA_PIXEL", "QA_RADSAT"]

/-- The two scene fields `get_bands_for_scene_meta` discriminates on
(`meta` entries `processingCorrectionLevel` and `sensor_name`, both
derived by `landsat/utils.py sceneid_parser`). -/
structure LandsatMeta where
  processingCorrectionLevel : String
  sensor_name : String
deriving Repr, DecidableEq

/-- `get_bands_for_scene_meta` (landsat/utils.py lines 201-232).  The
Python body leaves `bands` unassigned for discriminant combinations not
covered by any branch (an `UnboundLocalError` at the `return`), modelled
as `none`. -/
def get_bands_for_scene_meta (m : LandsatMeta) : Option (List String) :=
  if m.processingCorrectionLevel = "L2SR" then
    if m.sensor_name = "oli-tirs" || m.sensor_name = "oli" then some OLI_SR_BANDS
    else if m.sensor_name = "tm" || m.sensor_name = "etm" then some TM_SR_BANDS
    else none
  else if m.processingCorrectionLevel = "L2SP" then
    if m.sensor_name = "oli-tirs" then some (OLI_SR_BANDS ++ TIRS_ST_BANDS)
    else if m.sensor_name = "tm" || m.sensor_name = "etm" then
      some (TM_SR_BANDS ++ TM_ST_BANDS)
    else none
  else
    if m.sensor_name = "oli" then some (OLI_L1_BANDS ++ OLI_L1_QA_BANDS)
    else if m.sensor_name = "tirs" then some (TIRS_L1_BANDS ++ TIRS_L1_QA_BANDS)
    else if m.sensor_name = "oli-tirs" then
      some (OLI_L1_BANDS ++ TIRS_L1_BANDS ++ OLI_L1_QA_BANDS)
    else if m.sensor_name = "etm" then some ETM_L1_BANDS
    else if m.sensor_name = "tm" then some TM_L1_BANDS
    else if m.sensor_name = "mss" then some MSS_L1_BANDS
    else none

/-- The band assignment of `LandsatC2L2Reader.__attrs_post_init__`
(landsat_collection2.py lines 122-138): `L2SR` selects the SR tables and
every other processing level falls into the `else` branch selecting
SR plus ST; combinations assigned by neither arm are modelled as `none`. -/
def landsatC2L2Bands (m : LandsatMeta) : Option (List String) :=
  if m.processingCorrectionLevel = "L2SR" then
    if m.sensor_name = "oli-tirs" || m.sensor_name = "oli" then some OLI_SR_BANDS
    else if m.sensor_name = "tm" || m.sensor_name = "etm" then some TM_SR_BANDS
    else none
  else
    if m.sensor_name = "oli-tirs" then some (OLI_SR_BANDS ++ TIRS_ST_BANDS)
    else if m.sensor_name = "tm" || m.sensor_name = "etm" then
      some (TM_SR_BANDS ++ TM_ST_BANDS)
    else none

/-! ## CBERS scene id parsing
Embeds `rio_tiler_pds/cbers/utils.py`, function `sceneid_parser`, and the
band assignment of `CBERSReader.__attrs_post_init__`
(cbers/aws/cbers4.py lines 43-46).  The gate regex is
`^CBERS_(4|4A)_\w+_[0-9](8)_[0-9](3)_[0-9](3)_L\w+$`; the matcher below is
exact for scene ids whose instrument field contains no underscore — every
instrument in the catalog table is such, and a gate-passing id with an
underscored instrument crashes in Python with `KeyError` at the
`instrument_params` lookup, which the `keyError` outcome also covers. -/

/-- CBERS parsed fields used by the reader. -/
structure CbersMeta where
  satellite : String
  mission : String
  instrument : String
  acquisitionYear : String
  acquisitionMonth : String
  acquisitionDay : String
  path : String
  row : String
  processingCorrectionLevel : String
  reference_band : String
  bands : List String
  rgb : List String
deriving Repr, DecidableEq

/-- The `instrument_params` lookup table of `cbers/utils.py` (lines
54-81): reference band, band tuple and rgb triple per instrument. -/
def cbersInstrumentParams (instrument : String) :
    Option (String × List String × List String) :=
  if instrument = "MUX" then
    some ("B6", ["B5", "B6", "B7", "B8"], ["B7", "B6", "B5"])
  else if instrument = "AWFI" then
    some ("B14", ["B13", "B14", "B15", "B16"], ["B15", "B14", "B13"])
  else if instrument = "PAN10M" then
    some ("B4", ["B2", "B3", "B4"], ["B3", "B4", "B2"])
  else if instrument = "PAN5M" then
    some ("B1", ["B1"], ["B1", "B1", "B1"])
  else if instrument = "WFI" then
    some ("B14", ["B13", "B14", "B15", "B16"], ["B15", "B14", "B13"])
  else if instrument = "WPM" then
    some ("B2", ["B0", "B1", "B2", "B3", "B4"], ["B3", "B2", "B1"])
  else none

/-- Word character of the regex class `\w` (ASCII letters, digits,
underscore; the ids in use are ASCII). -/
def isWordChar (c : Char) : Bool := c.isAlphanum || c = '_'

/-- Segment of exactly `n` digits. -/
def segDigits (n : Nat) (s : List Char) : Option String :=
  if s.length = n && s.all Char.isDigit then some (String.mk s) else none

/-- `cbers/utils.py sceneid_parser` (lines 9-86): gate check, named
captures, then the `instrument_params` table lookup (a `KeyError` for an
instrument absent from the table, modelled as `keyError`). -/
def cbersParseSceneid (sceneid : String) : Except PdsError CbersMeta :=
  match splitUnderscore sceneid.data with
  | [s0, s1, s2, s3, s4, s5, s6] =>
    if (String.mk s0 = "CBERS" && (String.mk s1 = "4" || String.mk s1 = "4A")
        && (!s2.isEmpty && s2.all isWordChar)) then
      match segDigits 8 s3, segDigits 3 s4, segDigits 3 s5 with
      | some date, some pathv, some rowv =>
        match s6 with
        | 'L' :: rest =>
          if !rest.isEmpty && rest.all isWordChar then
            match cbersInstrumentParams (String.mk s2) with
            | some (ref, bandsv, rgbv) =>
              .ok { satellite := String.mk s0, mission := String.mk s1,
                    instrument := String.mk s2,
                    acquisitionYear := String.mk (date.data.take 4),
                    acquisitionMonth := String.mk ((date.data.drop 4).take 2),
                    acquisitionDay := String.mk (date.data.drop 6),
                    path := pathv, row := rowv,
                    processingCorrectionLevel := String.mk s6,
                    reference_band := ref, bands := bandsv, rgb := rgbv }
            | none => .error .keyError
          else .error (.invalidSceneId ("Could not match " ++ sceneid))
        | _ => .error (.invalidSceneId ("Could not match " ++ sceneid))
      | _, _, _ => .error (.invalidSceneId ("Could not match " ++ sceneid))
    else .error (.invalidSceneId ("Could not match " ++ sceneid))
  | _ => .error (.invalidSceneId ("Could not match " ++ sceneid))

/-! ## Multi-band orchestrator: band selection, expression mode, defaults
Embeds `rio_tiler_pds/reader.py` (`MultiBandReader.parse_expression` and
the shared band-selection prologue plus expression relabeling of
`MultiBandReader.tile`, `part`, `preview` and `point`) and the per-band
keyword handling of `rio_tiler_pds/landsat/aws/landsat8.py`.

The per-band raster reads themselves (`rio_tiler` `multi_arrays` /
`multi_values` and the single-band reader) are external collaborators and
are out of scope; the observables modelled for a read operation are the
emitted expression-mixing warning, the band selection fanned out to the
per-band reader, and the output band labels.  The labels in expression
mode are one per comma-separated sub-expression — modelled from the spec,
since `rio_tiler.expression.apply_expression` lives outside this
repository; the source computes `blocks = expression.split(",")` and
passes the blocks to it. -/

/-- Word character of the regex class `\w` used by the band-name word
boundaries `\b`. -/
def isWordCharW (c : Char) : Bool := c.isAlphanum || c = '_'

/-- The maximal word-character runs of a string, in order of appearance
(accumulator holds the current run reversed). -/
def wordRunsAux : List Char → List Char → List String
  | [], acc => if acc.isEmpty then [] else [String.mk acc.reverse]
  | c :: cs, acc =>
    if isWordCharW c then wordRunsAux cs (c :: acc)
    else if acc.isEmpty then wordRunsAux cs []
    else String.mk acc.reverse :: wordRunsAux cs []

/-- The maximal word-character runs of a string, in order of appearance. -/
def wordRuns (s : String) : List String := wordRunsAux s.data []

/-- `MultiBandReader.parse_expression` (reader.py lines 64-68):
`tuple(set(re.findall(alternation of word-bounded catalog bands, expr)))`.
Every catalog band name consists of word characters only, so a
`\b`-delimited occurrence of a band is exactly a maximal word-character
run equal to that band, and the set of strings found by `re.findall` is
the set of catalog bands occurring among the expression's maximal word
runs.  The Python source converts that set to a tuple, whose iteration
order is left unspecified (CPython string hashing is randomized per
process); this model fixes the canonical catalog order, and only
properties independent of the unspecified order — membership,
duplicate-freedom, and outputs of at most one band, where every order is
equal — are proved against it. -/
def parse_expression (bands : List String) (expression : String) : List String :=
  bands.filter (fun b => (wordRuns expression).contains b)

/-- First-occurrence deduplication (the `seen` accumulator keeps already
emitted entries). -/
def dedupKeepFirstAux : List String → List String → List String
  | [], _ => []
  | x :: xs, seen =>
    if seen.contains x then dedupKeepFirstAux xs seen
    else x :: dedupKeepFirstAux xs (x :: seen)

/-- The catalog bands occurring as whole words in an expression, listed in
their order of first appearance in the expression — the order
`re.findall` produces before the source's `set` conversion discards it. -/
def bandsInAppearanceOrder (bands : List String) (expression : String) : List String :=
  dedupKeepFirstAux ((wordRuns expression).filter (fun r => bands.contains r)) []

/-- The comma-separated sub-expression blocks,
`blocks = expression.split(",")` of reader.py. -/
def exprBlocks (expression : String) : List String :=
  (splitOnSep ',' expression.data).map String.mk

/-- Observable outcome of a successful multi-band read operation:
whether the expression-mixing warning fired, the bands fanned out to the
per-band reader, and the output band labels. -/
structure MultiBandResult where
  warned : Bool
  selectedBands : List String
  bandNames : List String
deriving Repr, DecidableEq

/-- The band-selection prologue shared verbatim by `MultiBandReader.tile`,
`part`, `preview` and `point` (reader.py lines 194-209 and their copies):
warn when both truthy `bands` and truthy `expression` are passed
(`ExpressionMixingWarning`), let the expression overwrite the band list,
and raise `MissingBands` when no bands remain — all before any band is
resolved or read.  `bands = none` models Python `None`; a caller passing a
single string is modelled by its one-element list (the source tuples it). -/
def multibandSelect (catalog : List String) (bands : Option (List String))
    (expression : String) : Except PdsError (Bool × List String) :=
  let bandsTruthy : Bool := match bands with | none => false | some l => !l.isEmpty
  let exprTruthy : Bool := expression != ""
  let warned := bandsTruthy && exprTruthy
  let selected := if exprTruthy then parse_expression catalog expression
                  else bands.getD []
  if selected.isEmpty then
    .error (.missingBands "bands must be passed either via expression or bands options.")
  else .ok (warned, selected)

/-- `MultiBandReader.tile` (reader.py lines 181-232): selection prologue,
fan-out over the selected bands, and in expression mode output labels
equal to the comma-separated blocks. -/
def multibandTile (catalog : List String) (bands : Option (List String))
    (expression : String) : Except PdsError MultiBandResult :=
  match multibandSelect catalog bands expression with
  | .error e => .error e
  | .ok (w, sel) =>
    .ok { warned := w, selectedBands := sel,
          bandNames := if expression != "" then exprBlocks expression else sel }

/-- `MultiBandReader.part` (reader.py lines 234-277), same selection and
labeling as `tile`. -/
def multibandPart (catalog : List String) (bands : Option (List String))
    (expression : String) : Except PdsError MultiBandResult :=
  match multibandSelect catalog bands expression with
  | .error e => .error e
  | .ok (w, sel) =>
    .ok { warned := w, selectedBands := sel,
          bandNames := if expression != "" then exprBlocks expression else sel }

/-- `MultiBandReader.preview` (reader.py lines 279-317), same selection
and labeling as `tile`. -/
def multibandPreview (catalog : List String) (bands : Option (List String))
    (expression : String) : Except PdsError MultiBandResult :=
  match multibandSelect catalog bands expression with
  | .error e => .error e
  | .ok (w, sel) =>
    .ok { warned := w, selectedBands := sel,
          bandNames := if expression != "" then exprBlocks expression else sel }

/-- `MultiBandReader.point` (reader.py lines 319-362), same selection and
labeling as `tile` (one value per block in expression mode). -/
def multibandPoint (catalog : List String) (bands : Option (List String))
    (expression : String) : Except PdsError MultiBandResult :=
  match multibandSelect catalog bands expression with
  | .error e => .error e
  | .ok (w, sel) =>
    .ok { warned := w, selectedBands := sel,
          bandNames := if expression != "" then exprBlocks expression else sel }

/-! ## Per-band reader keyword arguments (Landsat 8) -/

/-- The keyword arguments the orchestrator hands to the single-band
reader operation; `none` means the caller did not supply the parameter. -/
structure ReaderKwargs where
  nodata : Option Int := none
  resampling_method : Option String := none
deriving Repr, DecidableEq

/-- The `_reader` closure body shared verbatim by `L8Reader.stats`,
`metadata`, `tile`, `part` and `preview` (landsat8.py, e.g. lines
230-242): `nodata = 0`; `if band == "BQA": nodata = 1;
kwargs["resampling_method"] = "nearest"`; then
`kwargs.update(nodata=nodata)` — the update is unconditional, whatever
the caller put in `kwargs`.  (`L8Reader.point` sets the same nodata
without touching the resampling key.) -/
def l8ReaderKwargs (band : String) (kwargs : ReaderKwargs) : ReaderKwargs :=
  let nodata : Int := 0
  let step :=
    if band = "BQA" then
      (1, { kwargs with resampling_method := some "nearest" })
    else (nodata, kwargs)
  { step.2 with nodata := some step.1 }

/-- The `_reader` closure of `MultiBandReader.tile` (reader.py lines
211-216) and of the other generic operations: the caller's keyword
arguments reach the single-band reader unchanged. -/
def multibandReaderKwargs (_band : String) (kwargs : ReaderKwargs) : ReaderKwargs :=
  kwargs

/-- The parsed fields of the golden scene id `S2A_29RKH_20200219_0_L2A`
(the fixture scene of the Sentinel-2 COG reader tests). -/
def s2GoldenFields : S2Params :=
  { sensor := "2", satellite := "A", processingLevel := "L2A",
    acquisitionYear := "2020", acquisitionMonth := "02", acquisitionDay := "19",
    utm := "29", lat := "R", sq := "KH", num := "0" }

/-- Whether a band name belongs to a surface-temperature group: all and
only the members of `TIRS_ST_BANDS` and `TM_ST_BANDS` start with `ST_`,
and no band of any other Landsat table does. -/
def isSTBand (b : String) : Bool :=
  match b.data with
  | 'S' :: 'T' :: '_' :: _ => true
  | _ => false

/-! ## Theorems -/

/-- Evaluation helper for `dem30_get_dataset_url`: once the hemisphere
letters and the two floors are known, the url is the rendered pattern. -/
theorem dem30_url_eval (lon lat : ℚ) (ns ew : String) (li loi : ℤ)
    (hns : (if 0 ≤ lat then "N" else "S") = ns)
    (hew : (if lon < 0 then "W" else "E") = ew)
    (hli : ⌊lat⌋ = li) (hloi : ⌊lon⌋ = loi) :
    dem30_get_dataset_url lon lat =
      "s3://copernicus-dem-30m/" ++ dem30_prefix_pattern ns li.natAbs ew loi.natAbs ++ ".tif" := by
  rw [dem30_get_dataset_url, hns, hew, hli, hloi]

/-- Evaluation helper for the spec-worded variant. -/
theorem dem30_url_specWords_eval (lon lat : ℚ) (ns ew : String) (li loi : ℤ)
    (hns : (if 0 ≤ lat then "N" else "S") = ns)
    (hew : (if lon < 0 then "W" else "E") = ew)
    (hli : ⌊|lat|⌋ = li) (hloi : ⌊|lon|⌋ = loi) :
    dem30_get_dataset_url_specWords lon lat =
      "s3://copernicus-dem-30m/" ++ dem30_prefix_pattern ns li.natAbs ew loi.natAbs ++ ".tif" := by
  rw [dem30_get_dataset_url_specWords, hns, hew, hli, hloi]

/-- C1 counterexample: the source computes `abs(math.floor(lat))`, not
`floor(abs(lat))`; at longitude `0`, latitude `-0.1` the dataset URL is
the southern `01` cell, not the southern `00` cell the claim names, and it
differs from the spec-worded `floor(abs(lat))` rendering. -/
theorem C1_counterexample :
    dem30_get_dataset_url 0 (-1/10) =
      "s3://copernicus-dem-30m/Copernicus_DSM_COG_10_S01_00_E000_00_DEM/Copernicus_DSM_COG_10_S01_00_E000_00_DEM.tif" ∧
    dem30_get_dataset_url 0 (-1/10) ≠
      "s3://copernicus-dem-30m/Copernicus_DSM_COG_10_S00_00_E000_00_DEM/Copernicus_DSM_COG_10_S00_00_E000_00_DEM.tif" ∧
    dem30_get_dataset_url_specWords 0 (-1/10) =
      "s3://copernicus-dem-30m/Copernicus_DSM_COG_10_S00_00_E000_00_DEM/Copernicus_DSM_COG_10_S00_00_E000_00_DEM.tif" := by
  have h1 : dem30_get_dataset_url 0 (-1/10) =
      "s3://copernicus-dem-30m/" ++ dem30_prefix_pattern "S" ((-1 : ℤ)).natAbs "E" ((0 : ℤ)).natAbs ++ ".tif" :=
    dem30_url_eval 0 (-1/10) "S" "E" (-1) 0 (by norm_num) (by norm_num) (by norm_num) (by norm_num)
  have h2 : dem30_get_dataset_url_specWords 0 (-1/10) =
      "s3://copernicus-dem-30m/" ++ dem30_prefix_pattern "S" ((0 : ℤ)).natAbs "E" ((0 : ℤ)).natAbs ++ ".tif" :=
    dem30_url_specWords_eval 0 (-1/10) "S" "E" 0 0 (by norm_num) (by norm_num)
      (by rw [show |(-1/10 : ℚ)| = 1/10 by norm_num] ; norm_num) (by norm_num)
  refine ⟨by rw [h1] ; rfl, by rw [h1] ; decide, by rw [h2] ; rfl⟩

/-- C1 amended: for the Copernicus DEM mosaic reader the hemisphere letter
is recovered from the sign of the input, but the cell magnitude is
`abs(floor(lat))` — floor first, absolute value second — so every point
with latitude in `[-1, 0)` (longitude in `[0, 1)`), including latitude
`-0.1`, resolves to the southern `01` cell `S01`/`E000`, the cell covering
that interval; no negative-zero cell and no `S00` cell is produced for
negative latitudes. -/
theorem C1_dem_cell_magnitude (lon lat : ℚ)
    (hlon0 : 0 ≤ lon) (hlon1 : lon < 1) (hlat0 : -1 ≤ lat) (hlat1 : lat < 0) :
    dem30_get_dataset_url lon lat =
      "s3://copernicus-dem-30m/Copernicus_DSM_COG_10_S01_00_E000_00_DEM/Copernicus_DSM_COG_10_S01_00_E000_00_DEM.tif" := by
  have hfl : ⌊lat⌋ = -1 := by
    rw [Int.floor_eq_iff]
    push_cast
    constructor <;> linarith
  have hfo : ⌊lon⌋ = 0 := by
    rw [Int.floor_eq_iff]
    push_cast
    constructor <;> linarith
  rw [dem30_url_eval lon lat "S" "E" (-1) 0 (if_neg (not_le.mpr hlat1))
    (if_neg (not_lt.mpr hlon0)) hfl hfo]
  rfl

/-- C1 amended claim witness at longitude `0`, latitude `-0.1`. -/
theorem C1_dem_cell_magnitude_witness :
    dem30_get_dataset_url 0 (-1/10) =
      "s3://copernicus-dem-30m/Copernicus_DSM_COG_10_S01_00_E000_00_DEM/Copernicus_DSM_COG_10_S01_00_E000_00_DEM.tif" :=
  C1_dem_cell_magnitude 0 (-1/10) (by norm_num) (by norm_num) (by norm_num) (by norm_num)

/-- C2 counterexample: the claim says caller-supplied `nodata` and
`resampling` reach the per-band single-band reader unchanged, with
band-level defaults applied only when the caller did not supply the
parameter.  The `L8Reader` per-band reader overwrites a caller-supplied
`nodata=5` with `0` on band `B1`, and on band `BQA` overwrites both a
caller-supplied `nodata=5` (with the sentinel `1`) and a caller-supplied
`resampling_method="bilinear"` (with `"nearest"`). -/
theorem C2_counterexample :
    l8ReaderKwargs "B1" { nodata := some 5, resampling_method := none } =
      { nodata := some 0, resampling_method := none } ∧
    (l8ReaderKwargs "B1" { nodata := some 5, resampling_method := none }).nodata ≠ some 5 ∧
    l8ReaderKwargs "BQA" { nodata := some 5, resampling_method := some "bilinear" } =
      { nodata := some 1, resampling_method := some "nearest" } := by
  refine ⟨by rfl, by decide, by rfl⟩

/-- C2 amended: the generic `MultiBandReader` per-band reader passes every
caller-supplied operation parameter through unchanged and applies no
band-level default; the `L8Reader` per-band reader unconditionally sets
`nodata` (to the sentinel `1` for the quality band `BQA`, to `0` for every
other band) and forces nearest-neighbor resampling for `BQA`, overwriting
caller-supplied values rather than deferring to them; a caller-supplied
resampling of any non-`BQA` band is passed through unchanged. -/
theorem C2_band_defaults :
    ∀ (band : String) (kwargs : ReaderKwargs),
      multibandReaderKwargs band kwargs = kwargs ∧
      (l8ReaderKwargs band kwargs).nodata = some (if band = "BQA" then 1 else 0) ∧
      (l8ReaderKwargs band kwargs).resampling_method =
        (if band = "BQA" then some "nearest" else kwargs.resampling_method) := by
  intro band kwargs
  refine ⟨rfl, ?_, ?_⟩ <;> by_cases h : band = "BQA" <;> simp [l8ReaderKwargs, h]

/-- C4: invalid inputs fail closed — a malformed scene id makes the scene
parser raise the invalid-scene-id error with the source's message; a
well-formed scene with a requested band (`B100`, alias-normalized to
`B00`) absent from the catalog makes URL resolution raise the
invalid-band-name error naming the normalized band and citing the valid
bands; a read request with no band list and no expression raises the
missing-bands error in the selection prologue, before any band is
resolved or read. -/
theorem C4_invalid_inputs_fail_closed :
    s2ParseSceneid "blabla" = .error (.invalidSceneId "Could not match blabla") ∧
    s2l2acogGetBandUrl default_l2a_bands s2GoldenFields "B100" =
      .error (.invalidBandName ("B00 is not valid.\nValid bands: " ++ toString default_l2a_bands)) ∧
    multibandTile default_l2a_bands none "" =
      .error (.missingBands "bands must be passed either via expression or bands options.") := by
  refine ⟨by rfl, by rfl, by rfl⟩

/-- C5: for the scene `S2A_29RKH_20200219_0_L2A` the parser returns the
golden fields, resolving band `B01` yields exactly the golden reference
`s3://sentinel-cogs/sentinel-s2-l2a-cogs/29/R/KH/2020/2/S2A_29RKH_20200219_0_L2A/B01.tif`,
and the alias form `B1` — which is itself not a catalog entry — resolves
to the identical reference, the alias being normalized before the catalog
membership check. -/
theorem C5_golden_sentinel2_url :
    s2ParseSceneid "S2A_29RKH_20200219_0_L2A" = .ok s2GoldenFields ∧
    s2l2acogGetBandUrl default_l2a_bands s2GoldenFields "B01" =
      .ok "s3://sentinel-cogs/sentinel-s2-l2a-cogs/29/R/KH/2020/2/S2A_29RKH_20200219_0_L2A/B01.tif" ∧
    s2l2acogGetBandUrl default_l2a_bands s2GoldenFields "B1" =
      .ok "s3://sentinel-cogs/sentinel-s2-l2a-cogs/29/R/KH/2020/2/S2A_29RKH_20200219_0_L2A/B01.tif" ∧
    default_l2a_bands.contains "B1" = false := by
  refine ⟨by rfl, by rfl, by rfl, by rfl⟩

/-- C6: `assets_for_point` always returns exactly the one reference of the
cell chosen by floor truncation; in particular the boundary point
(lon 10.0, lat 10.0) resolves to cell `N10`/`E010`, not `N09`/`E009`. -/
theorem C6_dem_point_on_boundary :
    (∀ lon lat : ℚ, dem30_assets_for_point lon lat = [dem30_get_dataset_url lon lat]) ∧
    dem30_assets_for_point 10 10 =
      ["s3://copernicus-dem-30m/Copernicus_DSM_COG_10_N10_00_E010_00_DEM/Copernicus_DSM_COG_10_N10_00_E010_00_DEM.tif"] ∧
    dem30_assets_for_point 10 10 ≠
      ["s3://copernicus-dem-30m/Copernicus_DSM_COG_10_N09_00_E009_00_DEM/Copernicus_DSM_COG_10_N09_00_E009_00_DEM.tif"] := by
  have h : dem30_get_dataset_url 10 10 =
      "s3://copernicus-dem-30m/" ++ dem30_prefix_pattern "N" ((10 : ℤ)).natAbs "E" ((10 : ℤ)).natAbs ++ ".tif" :=
    dem30_url_eval 10 10 "N" "E" 10 10 (by norm_num) (by norm_num) (by norm_num) (by norm_num)
  refine ⟨fun lon lat => rfl, ?_, ?_⟩
  · rw [dem30_assets_for_point, h] ; rfl
  · rw [dem30_assets_for_point, h] ; decide

/-- C8: parsing `CBERS_4_MUX_20171121_057_094_L2` yields the band catalog
exactly equal to the ordered list `B5, B6, B7, B8` — the declared tuple
order of the MUX entry of the instrument table, not a set and not
re-sorted; the parser is a pure function, so repeated calls on the same
scene id return this same list (`CBERSReader.__attrs_post_init__` copies
it unchanged into `self.bands`). -/
theorem C8_cbers_band_catalog_order :
    (cbersParseSceneid "CBERS_4_MUX_20171121_057_094_L2").map (fun m => m.bands) =
      .ok ["B5", "B6", "B7", "B8"] ∧
    (cbersParseSceneid "CBERS_4_MUX_20171121_057_094_L2").map (fun m => m.instrument) =
      .ok "MUX" := by
  refine ⟨by rfl, by rfl⟩

/-- C10: Sentinel-2 alias normalization is purely length-based — a
requested band token with a last character whose length is not 3 is
replaced by `B0` plus that last character before the catalog membership
check, so it resolves (in both the L2A-COG and the L1C reader) to the same
reference as the three-character form whenever that form is in the
catalog, while every three-character token is used verbatim. -/
theorem C10_alias_normalization :
    (∀ (bands : List String) (p : S2Params) (t : String) (c : Char),
      t.data.getLast? = some c → t.length ≠ 3 → String.mk ['B', '0', c] ∈ bands →
      s2l2acogGetBandUrl bands p t = s2l2acogGetBandUrl bands p (String.mk ['B', '0', c]) ∧
      s2l1cGetBandUrl bands p t = s2l1cGetBandUrl bands p (String.mk ['B', '0', c])) ∧
    (∀ t : String, t.length = 3 → s2NormalizeBand t = some t) := by
  constructor
  · intro bands p t c hlast hlen _hmem
    have hn : s2NormalizeBand t = some (String.mk ['B', '0', c]) := by
      simp [s2NormalizeBand, hlen, hlast]
    have hn2 : s2NormalizeBand (String.mk ['B', '0', c]) = some (String.mk ['B', '0', c]) := rfl
    constructor
    · rw [s2l2acogGetBandUrl, s2l2acogGetBandUrl, hn, hn2]
    · rw [s2l1cGetBandUrl, s2l1cGetBandUrl, hn, hn2]
  · intro t h
    simp [s2NormalizeBand, h]

/-- C10 witness: the four-character token `B002` (last character `2`)
resolves like `B02` in both readers, and the three-character token `B8A`
is kept verbatim by the normalization. -/
theorem C10_alias_normalization_witness :
    (s2l2acogGetBandUrl default_l2a_bands s2GoldenFields "B002" =
       s2l2acogGetBandUrl default_l2a_bands s2GoldenFields "B02" ∧
     s2l1cGetBandUrl default_l2a_bands s2GoldenFields "B002" =
       s2l1cGetBandUrl default_l2a_bands s2GoldenFields "B02") ∧
    s2NormalizeBand "B8A" = some "B8A" :=
  ⟨C10_alias_normalization.1 default_l2a_bands s2GoldenFields "B002" '2' (by rfl) (by decide)
      (by decide),
   C10_alias_normalization.2 "B8A" (by rfl)⟩

/-- C3: on every read operation of `MultiBandReader` (tile, part, preview,
point), when a non-empty explicit band list and a non-empty expression
that matches at least one catalog band are both supplied, the operation
succeeds (no error), the expression-mixing warning fires, the explicit
list is discarded in favor of the expression's bands, and the output band
labels are the expression's comma-separated sub-expression strings. -/
theorem C3_expression_precedence (catalog bs : List String) (expr : String)
    (hbs : bs ≠ []) (hex : expr ≠ "") (hpe : parse_expression catalog expr ≠ []) :
    multibandTile catalog (some bs) expr =
      .ok { warned := true, selectedBands := parse_expression catalog expr,
            bandNames := exprBlocks expr } ∧
    multibandPart catalog (some bs) expr =
      .ok { warned := true, selectedBands := parse_expression catalog expr,
            bandNames := exprBlocks expr } ∧
    multibandPreview catalog (some bs) expr =
      .ok { warned := true, selectedBands := parse_expression catalog expr,
            bandNames := exprBlocks expr } ∧
    multibandPoint catalog (some bs) expr =
      .ok { warned := true, selectedBands := parse_expression catalog expr,
            bandNames := exprBlocks expr } := by
  have hbt : (!bs.isEmpty) = true := by
    simp [List.isEmpty_iff, hbs]
  have het : (expr != "") = true := by
    simp [bne_iff_ne, hex]
  have hpet : (parse_expression catalog expr).isEmpty = false := by
    simp [List.isEmpty_iff, hpe]
  have hsel : multibandSelect catalog (some bs) expr =
      .ok (true, parse_expression catalog expr) := by
    rw [multibandSelect]
    simp only [hbt, het, Bool.and_self, if_true]
    rw [if_neg (by simp [hpet])]
  refine ⟨?_, ?_, ?_, ?_⟩ <;>
    simp [multibandTile, multibandPart, multibandPreview, multibandPoint, hsel, het]

/-- C3 witness: catalog `B01, B02`, explicit list `B01`, expression `B02`:
all four operations warn, select `B02` and label the output `B02`. -/
theorem C3_expression_precedence_witness :
    multibandTile ["B01", "B02"] (some ["B01"]) "B02" =
      .ok { warned := true, selectedBands := parse_expression ["B01", "B02"] "B02",
            bandNames := exprBlocks "B02" } ∧
    multibandPart ["B01", "B02"] (some ["B01"]) "B02" =
      .ok { warned := true, selectedBands := parse_expression ["B01", "B02"] "B02",
            bandNames := exprBlocks "B02" } ∧
    multibandPreview ["B01", "B02"] (some ["B01"]) "B02" =
      .ok { warned := true, selectedBands := parse_expression ["B01", "B02"] "B02",
            bandNames := exprBlocks "B02" } ∧
    multibandPoint ["B01", "B02"] (some ["B01"]) "B02" =
      .ok { warned := true, selectedBands := parse_expression ["B01", "B02"] "B02",
            bandNames := exprBlocks "B02" } :=
  C3_expression_precedence ["B01", "B02"] ["B01"] "B02" (by decide) (by decide) (by decide)

/-- No member of the given list is a surface-temperature band. -/
theorem no_st_mem {l : List String} (hall : l.all (fun s => !(isSTBand s)) = true)
    {b : String} (hb : b ∈ l) (hst : isSTBand b = true) : False := by
  have h2 := List.all_eq_true.mp hall b hb
  rw [hst] at h2
  simp at h2

/-- C7: for Landsat Collection 2 scene fields the band catalog is the
concatenation of the surface-reflectance group and, only for processing
level `L2SP`, the surface-temperature group, each in its fixed declared
order: an `L2SR` oli-tirs scene yields exactly the SR bands, an `L2SP`
oli-tirs scene yields the SR bands followed by the ST bands, a
surface-temperature band appears in a resolved catalog only at level
`L2SP`, and for the two level-2 processing levels the band assignment of
`LandsatC2L2Reader.__attrs_post_init__` agrees with
`get_bands_for_scene_meta`. -/
theorem C7_landsat_catalog_concat :
    (∀ m : LandsatMeta, m.processingCorrectionLevel = "L2SR" → m.sensor_name = "oli-tirs" →
      get_bands_for_scene_meta m = some OLI_SR_BANDS) ∧
    (∀ m : LandsatMeta, m.processingCorrectionLevel = "L2SP" → m.sensor_name = "oli-tirs" →
      get_bands_for_scene_meta m = some (OLI_SR_BANDS ++ TIRS_ST_BANDS)) ∧
    (∀ (m : LandsatMeta) (bs : List String) (b : String),
      get_bands_for_scene_meta m = some bs → b ∈ bs → isSTBand b = true →
      m.processingCorrectionLevel = "L2SP") ∧
    (∀ m : LandsatMeta,
      m.processingCorrectionLevel = "L2SR" ∨ m.processingCorrectionLevel = "L2SP" →
      landsatC2L2Bands m = get_bands_for_scene_meta m) := by
  refine ⟨?_, ?_, ?_, ?_⟩
  · intro m h1 h2
    simp [get_bands_for_scene_meta, h1, h2]
  · intro m h1 h2
    simp [get_bands_for_scene_meta, h1, h2]
  · intro m bs b h hb hst
    rw [get_bands_for_scene_meta] at h
    split_ifs at h with c1 c2 c3 c4 c5 c6 c7 c8 c9 c10 c11
    all_goals first
      | assumption
      | (injection h with h ; subst h ; exact (no_st_mem (by decide) hb hst).elim)
  · intro m h
    rcases h with h | h
    · simp [landsatC2L2Bands, get_bands_for_scene_meta, h]
    · have hne : ("L2SP" : String) ≠ "L2SR" := by decide
      simp [landsatC2L2Bands, get_bands_for_scene_meta, h, hne]

/-- C7 witness at concrete oli-tirs scene fields of levels `L2SR` and
`L2SP`, including the only-at-`L2SP` direction applied at `ST_B10`. -/
theorem C7_landsat_catalog_concat_witness :
    get_bands_for_scene_meta { processingCorrectionLevel := "L2SR", sensor_name := "oli-tirs" } =
      some OLI_SR_BANDS ∧
    get_bands_for_scene_meta { processingCorrectionLevel := "L2SP", sensor_name := "oli-tirs" } =
      some (OLI_SR_BANDS ++ TIRS_ST_BANDS) ∧
    ({ processingCorrectionLevel := "L2SP", sensor_name := "oli-tirs" } : LandsatMeta).processingCorrectionLevel = "L2SP" ∧
    landsatC2L2Bands { processingCorrectionLevel := "L2SP", sensor_name := "oli-tirs" } =
      get_bands_for_scene_meta { processingCorrectionLevel := "L2SP", sensor_name := "oli-tirs" } :=
  ⟨C7_landsat_catalog_concat.1 _ rfl rfl,
   C7_landsat_catalog_concat.2.1 _ rfl rfl,
   C7_landsat_catalog_concat.2.2.1 _ (OLI_SR_BANDS ++ TIRS_ST_BANDS) "ST_B10"
     (C7_landsat_catalog_concat.2.1 _ rfl rfl) (by decide) (by decide),
   C7_landsat_catalog_concat.2.2.2 _ (Or.inr rfl)⟩

/-- C9 counterexample: the claim asserts that for every expression the
returned tuple's order is not the bands' order of appearance in the
expression; for the single-band expression `B1` over catalog `B1, B2` the
result is `B1` alone, which is exactly the order of appearance — any
iteration order of a one-element set coincides with it. -/
theorem C9_counterexample :
    parse_expression ["B1", "B2"] "B1" = ["B1"] ∧
    bandsInAppearanceOrder ["B1", "B2"] "B1" = ["B1"] ∧
    parse_expression ["B1", "B2"] "B1" = bandsInAppearanceOrder ["B1", "B2"] "B1" := by
  refine ⟨by decide, by decide, by decide⟩

/-- C9 amended: for a duplicate-free catalog, `parse_expression` returns
a duplicate-free tuple containing exactly those catalog band names that
occur as whole words (maximal word-character runs) in the expression,
each band at most once however often it occurs; the tuple's order comes
from Python set iteration and is unspecified — it is not guaranteed to be
the bands' order of appearance in the expression, but it can coincide
with it (it always does when at most one band matches). -/
theorem C9_parse_expression_membership (catalog : List String) (expr : String)
    (hnd : catalog.Nodup) :
    (parse_expression catalog expr).Nodup ∧
    (∀ b : String, b ∈ parse_expression catalog expr ↔ b ∈ catalog ∧ b ∈ wordRuns expr) := by
  constructor
  · exact hnd.filter _
  · intro b
    simp [parse_expression, List.mem_filter, List.contains, List.elem_iff]

/-- C9 amended claim witness over catalog `B01, B02` and expression
`B01/B02`. -/
theorem C9_parse_expression_membership_witness :
    (parse_expression ["B01", "B02"] "B01/B02").Nodup ∧
    ("B01" ∈ parse_expression ["B01", "B02"] "B01/B02" ↔
      "B01" ∈ (["B01", "B02"] : List String) ∧ "B01" ∈ wordRuns "B01/B02") :=
  ⟨(C9_parse_expression_membership ["B01", "B02"] "B01/B02" (by decide)).1,
   (C9_parse_expression_membership ["B01", "B02"] "B01/B02" (by decide)).2 "B01"⟩
